import Mathlib

/-!
Verification of the storage-gateway backend adapters (Azure Blob Storage,
Swift, WEKO) and the OSF auth handler: a shallow embedding of the provider
methods in `src/waterbutler`, with theorems settling the specification
claims about uploads, folder-metadata synthesis, bulk delete, root-delete
confirmation, intra-copy eligibility, path validation, downloads and the
auth handler.

Strings from the Python source are modelled as `List Char`; byte streams as
`List Nat`.  Backend wire clients (out of scope per the spec) are modelled
by their capability surface: the set of object keys in the container, the
integrity token returned by a commit, and the HTTP status of a response.
-/

set_option autoImplicit false

abbrev Str : Type := List Char

/-- Convert a string literal to the `List Char` model. -/
def str (s : String) : Str := s.toList

/-- The typed failures raised by the embedded code (waterbutler.core.exceptions
plus the Python built-in exceptions the source can raise). -/
inductive WBError where
  | InvalidPathError
  | NotFoundError
  | MetadataError (code : Nat)
  | DownloadError (code : Nat)
  | DeleteError (code : Nat)
  | UploadChecksumError
  | FolderNamingConflict
  | AssertionError
  | NotImplementedError
  | TypeError
  | NameError
  | AuthError (code : Nat)
  | ValueError
  deriving DecidableEq, Repr

/-- Modelled from the spec: `WaterButlerPath` (waterbutler.core.path, not under
src/): `raw` always begins with a slash; an optional backend-native
identifier. -/
structure WBPath where
  raw : Str
  identifier : Option Str := none
  deriving DecidableEq, Repr

/-- Modelled from the spec: a path ending in a separator (or equal to the bare
separator) is a directory. -/
def WBPath.is_dir (p : WBPath) : Bool := p.raw.getLast? = some '/'

/-- Modelled from the spec: the root path is the bare separator. -/
def WBPath.is_root (p : WBPath) : Bool := p.raw = ['/']

/-- Modelled from the spec: a path is a file when it is not a directory. -/
def WBPath.is_file (p : WBPath) : Bool := ¬ p.is_dir

/-- Modelled from the spec: `path.path`, the backend object key, is the raw
form with the leading slash removed. -/
def WBPath.path (p : WBPath) : Str := p.raw.drop 1

/-- Modelled from the spec: `WaterButlerPath` construction performs syntactic
validation only: it fails with `InvalidPathError` when the raw string does
not begin with a slash. -/
def waterButlerPath (raw : Str) : Except WBError WBPath :=
  if ['/'].isPrefixOf raw then .ok { raw := raw } else .error .InvalidPathError

/-! ## Streaming upload pipeline (azureblobstorage/provider.py `upload`,
swift/provider.py `upload`)

The loop `while True: chunk = await stream.read(100); if not chunk: break;
f.write(chunk)` drains the stream into the scratch buffer in 100-byte
chunks.  The md5 stream writer digests exactly the bytes read, i.e. the
concatenation of the chunks.  `put_object` commits the buffer and returns
the backend integrity token, after which the source runs
`assert etag == stream.writers['md5'].hexdigest`. -/

/-- The chunked drain loop, fuelled by the stream length (each iteration
consumes at least one byte of a non-empty stream). -/
def drainAux : Nat → List Nat → List Nat
  | _, [] => []
  | 0, _ :: _ => []
  | fuel + 1, b :: rest => (b :: rest).take 100 ++ drainAux fuel ((b :: rest).drop 100)

/-- Contents of the scratch buffer after draining `data` in 100-byte chunks. -/
def drain100 (data : List Nat) : List Nat := drainAux data.length data

/-- Result of an upload: on success the metadata lookup for the committed key
together with `not exists`; paired with whether the backend object was
written by `put_object`. -/
def AzureBlobStorageProvider.upload (md5hex : List Nat → Str) (etagOf : List Nat → Str)
    (data : List Nat) (p : WBPath) (exists_ : Bool) :
    Except WBError (Str × Bool) × Bool :=
  let buffer := drain100 data
  let etag := etagOf buffer
  if etag = md5hex buffer then (.ok (p.path, !exists_), true) else (.error .AssertionError, true)

/-- swift/provider.py `upload`: textually the same pipeline as the Azure
adapter (drain in 100-byte chunks, commit, assert the token equals the local
md5 digest). -/
def SwiftProvider.upload (md5hex : List Nat → Str) (etagOf : List Nat → Str)
    (data : List Nat) (p : WBPath) (exists_ : Bool) :
    Except WBError (Str × Bool) × Bool :=
  let buffer := drain100 data
  let etag := etagOf buffer
  if etag = md5hex buffer then (.ok (p.path, !exists_), true) else (.error .AssertionError, true)

theorem drainAux_eq_of_le (fuel : Nat) :
    ∀ data : List Nat, data.length ≤ fuel → drainAux fuel data = data := by
  induction fuel with
  | zero =>
    intro data h
    match data with
    | [] => rfl
    | b :: rest => simp at h
  | succ n ih =>
    intro data h
    match data with
    | [] => rfl
    | b :: rest =>
      have hdrop : ((b :: rest).drop 100).length ≤ n := by
        simp only [List.length_drop]
        omega
      simp only [drainAux, ih _ hdrop, List.take_append_drop]

/-- The drained scratch buffer holds exactly the bytes of the stream. -/
theorem drain100_eq (data : List Nat) : drain100 data = data :=
  drainAux_eq_of_le data.length data (Nat.le_refl _)

/-- C1 counterexample: with a deliberately corrupted backend-returned token
(`etagOf` constantly "x" while the local md5 digest is "y"), both uploads
fail with a bare `AssertionError`, which is not the typed
`UploadChecksumError` the claim names. -/
theorem upload_mismatch_is_assertion_not_checksum_error :
    AzureBlobStorageProvider.upload (fun _ => str "y") (fun _ => str "x")
        [1, 2, 3] { raw := str "/a.txt" } true
      = (.error .AssertionError, true)
    ∧ SwiftProvider.upload (fun _ => str "y") (fun _ => str "x")
        [1, 2, 3] { raw := str "/a.txt" } true
      = (.error .AssertionError, true)
    ∧ WBError.AssertionError ≠ WBError.UploadChecksumError := by
  exact ⟨rfl, rfl, by decide⟩

/-- C1 amended: after the stream is drained into the scratch buffer (which
holds exactly the stream's bytes) and the backend commit returns its
integrity token, the token is compared against the locally computed md5
digest; on mismatch the upload fails with an `AssertionError` (a bare
`assert`, not the typed `UploadChecksumError`), no metadata entry is
returned, and the already-written backend object is left in place. -/
theorem upload_checksum_mismatch_fails (md5hex etagOf : List Nat → Str)
    (data : List Nat) (p : WBPath) (exists_ : Bool)
    (hne : etagOf (drain100 data) ≠ md5hex (drain100 data)) :
    AzureBlobStorageProvider.upload md5hex etagOf data p exists_
      = (.error .AssertionError, true)
    ∧ SwiftProvider.upload md5hex etagOf data p exists_
      = (.error .AssertionError, true)
    ∧ drain100 data = data := by
  refine ⟨?_, ?_, drain100_eq data⟩ <;>
    simp only [AzureBlobStorageProvider.upload, SwiftProvider.upload, if_neg hne]

theorem upload_checksum_mismatch_fails_witness :
    (fun _ : List Nat => str "x") (drain100 [1, 2, 3])
      ≠ (fun _ : List Nat => str "y") (drain100 [1, 2, 3])
    ∧ (AzureBlobStorageProvider.upload (fun _ => str "y") (fun _ => str "x")
          [1, 2, 3] { raw := str "/b.txt" } false
        = (.error .AssertionError, true)
      ∧ SwiftProvider.upload (fun _ => str "y") (fun _ => str "x")
          [1, 2, 3] { raw := str "/b.txt" } false
        = (.error .AssertionError, true)
      ∧ drain100 [1, 2, 3] = [1, 2, 3]) :=
  ⟨by decide,
   upload_checksum_mismatch_fails (fun _ => str "y") (fun _ => str "x")
     [1, 2, 3] { raw := str "/b.txt" } false (by decide)⟩

/-! ## Bulk/Batch Delete Coordinator (swift/provider.py `_delete_folder`)

The pagination loop accumulates `content_keys` across listing pages (the
marker protocol never re-reads a page, so the accumulated sequence is the
concatenation of the pages).  If nothing accumulated, `NotFoundError` is
raised before any delete request; otherwise the loop repeatedly takes
`content_keys[:1000]`, deletes that slice from the front, and issues one
bulk-delete request per slice. -/

/-- Keys accumulated over the paginated listing responses. -/
def accumulatePages (pages : List (List Str)) : List Str := pages.flatten

/-- The batch loop (`while len(content_keys) > 0`), fuelled by the key count:
each iteration consumes at least one key of a non-empty key set. -/
def batchSlicesAux : Nat → List Str → List (List Str)
  | _, [] => []
  | 0, _ :: _ => []
  | fuel + 1, k :: rest => (k :: rest).take 1000 :: batchSlicesAux fuel ((k :: rest).drop 1000)

/-- The sequence of bulk-delete request payloads (one slice of at most 1000
keys per request), in the order they are issued. -/
def batchSlices (keys : List Str) : List (List Str) := batchSlicesAux keys.length keys

/-- swift/provider.py `_delete_folder`: accumulate the paginated listing,
raise `NotFoundError` on an empty accumulation, otherwise issue the batch
requests. -/
def SwiftProvider._delete_folder (pages : List (List Str)) : Except WBError (List (List Str)) :=
  let contentKeys := accumulatePages pages
  if contentKeys.length = 0 then .error .NotFoundError
  else .ok (batchSlices contentKeys)

theorem batchSlicesAux_join (fuel : Nat) :
    ∀ keys : List Str, keys.length ≤ fuel → (batchSlicesAux fuel keys).flatten = keys := by
  induction fuel with
  | zero =>
    intro keys h
    match keys with
    | [] => rfl
    | k :: rest => simp at h
  | succ n ih =>
    intro keys h
    match keys with
    | [] => rfl
    | k :: rest =>
      have hdrop : ((k :: rest).drop 1000).length ≤ n := by
        simp only [List.length_drop]
        omega
      simp only [batchSlicesAux, List.flatten_cons, ih _ hdrop, List.take_append_drop]

theorem batchSlicesAux_sizes (fuel : Nat) :
    ∀ keys : List Str, ∀ b ∈ batchSlicesAux fuel keys, b ≠ [] ∧ b.length ≤ 1000 := by
  induction fuel with
  | zero =>
    intro keys b hb
    match keys with
    | [] => simp [batchSlicesAux] at hb
    | k :: rest => simp [batchSlicesAux] at hb
  | succ n ih =>
    intro keys b hb
    match keys with
    | [] => simp [batchSlicesAux] at hb
    | k :: rest =>
      simp only [batchSlicesAux, List.mem_cons] at hb
      rcases hb with rfl | hb
      · refine ⟨by simp, ?_⟩
        simp only [List.length_take]
        exact Nat.min_le_left 1000 (k :: rest).length
      · exact ih _ b hb

/-- Nat-level plan of slice sizes, fuelled exactly like the batch loop. -/
def sizePlanAux : Nat → Nat → List Nat
  | _, 0 => []
  | 0, _ + 1 => []
  | fuel + 1, n + 1 => min 1000 (n + 1) :: sizePlanAux fuel (n + 1 - 1000)

theorem batchSlicesAux_map_length (fuel : Nat) :
    ∀ keys : List Str, (batchSlicesAux fuel keys).map List.length
      = sizePlanAux fuel keys.length := by
  induction fuel with
  | zero =>
    intro keys
    match keys with
    | [] => rfl
    | k :: rest => rfl
  | succ n ih =>
    intro keys
    match keys with
    | [] => rfl
    | k :: rest =>
      simp only [batchSlicesAux, List.map_cons, ih, List.length_take, List.length_drop,
        sizePlanAux, List.length_cons]

/-- C3: if the paginated listing accumulates zero keys, `_delete_folder`
fails with `NotFoundError` and no delete request is issued; otherwise the
keys are consumed from the front in slices of at most 1000 (one bulk-delete
request per non-empty slice, the slices concatenating back to the whole key
set, so the set is empty afterward), and 2500 accumulated keys yield exactly
3 requests of sizes 1000, 1000, 500. -/
theorem swift_delete_folder_batches (pages : List (List Str)) :
    (accumulatePages pages = [] →
      SwiftProvider._delete_folder pages = .error .NotFoundError)
    ∧ (accumulatePages pages ≠ [] →
        SwiftProvider._delete_folder pages = .ok (batchSlices (accumulatePages pages))
        ∧ (batchSlices (accumulatePages pages)).flatten = accumulatePages pages
        ∧ (∀ b ∈ batchSlices (accumulatePages pages), b ≠ [] ∧ b.length ≤ 1000)
        ∧ ((accumulatePages pages).length = 2500 →
            (batchSlices (accumulatePages pages)).map List.length = [1000, 1000, 500])) := by
  constructor
  · intro h
    simp [SwiftProvider._delete_folder, h]
  · intro h
    have hlen : (accumulatePages pages).length ≠ 0 := by
      simpa [List.length_eq_zero] using h
    refine ⟨by simp [SwiftProvider._delete_folder, hlen], ?_, ?_, ?_⟩
    · exact batchSlicesAux_join _ _ (Nat.le_refl _)
    · exact batchSlicesAux_sizes _ _
    · intro h2500
      rw [batchSlices, batchSlicesAux_map_length, h2500]
      decide

theorem swift_delete_folder_batches_witness :
    accumulatePages [[str "k"]] ≠ []
    ∧ (SwiftProvider._delete_folder [[str "k"]]
        = .ok (batchSlices (accumulatePages [[str "k"]]))
      ∧ (batchSlices (accumulatePages [[str "k"]])).flatten = accumulatePages [[str "k"]]
      ∧ (∀ b ∈ batchSlices (accumulatePages [[str "k"]]), b ≠ [] ∧ b.length ≤ 1000)
      ∧ ((accumulatePages [[str "k"]]).length = 2500 →
          (batchSlices (accumulatePages [[str "k"]])).map List.length = [1000, 1000, 500])) :=
  ⟨by decide, (swift_delete_folder_batches [[str "k"]]).2 (by decide)⟩

/-! ## Delete entry points (azureblobstorage/provider.py `delete`,
swift/provider.py `delete`, weko/provider.py `delete`)

Each adapter's `delete` is modelled as the pair of its outcome and the list
of backend delete calls it issues.  The Azure and Swift adapters guard the
root path behind `confirm_delete == 1`; the WEKO adapter has no such guard
(its `**kwargs` absorb `confirm_delete` unread) and immediately evaluates
`'/' + path.identifier`, which raises `TypeError` when the identifier is
absent (as it is for the root path). -/

/-- A backend delete call issued by an adapter. -/
inductive DelCall where
  | deleteObject (key : Str)
  | bulkDelete (batch : List Str)
  deriving DecidableEq, Repr

def AzureBlobStorageProvider.delete (p : WBPath) (confirm_delete : Int) :
    Except WBError Unit × List DelCall :=
  if p.is_root ∧ confirm_delete ≠ 1 then (.error (.DeleteError 400), [])
  else if p.is_file then (.ok (), [.deleteObject p.path])
  else (.error .NotImplementedError, [])

/-- swift/provider.py `delete`: same guard; the folder branch runs
`_delete_folder` over the paginated listing. -/
def SwiftProvider.delete (pages : List (List Str)) (p : WBPath) (confirm_delete : Int) :
    Except WBError Unit × List DelCall :=
  if p.is_root ∧ confirm_delete ≠ 1 then (.error (.DeleteError 400), [])
  else if p.is_file then (.ok (), [.deleteObject p.path])
  else
    match SwiftProvider._delete_folder pages with
    | .error e => (.error e, [])
    | .ok batches => (.ok (), batches.map .bulkDelete)

/-- weko/provider.py `delete`: no root/confirm guard at all; it starts with
`'/' + path.identifier`, a `TypeError` when the identifier is `None`,
and otherwise issues the single DELETE request. -/
def WEKOProvider.delete (p : WBPath) (confirm_delete : Int) :
    Except WBError Unit × List DelCall :=
  match p.identifier with
  | none => (.error .TypeError, [])
  | some fid => (.ok (), [.deleteObject fid])

/-- C4 counterexample: the WEKO adapter's root delete with
`confirm_delete = 0` does not fail with `DeleteError(400)` (it raises a
`TypeError` from `'/' + None`), so the claim does not hold for every
backend adapter. -/
theorem weko_root_delete_not_delete_error :
    WEKOProvider.delete { raw := ['/'] } 0 = (.error .TypeError, [])
    ∧ WBError.TypeError ≠ WBError.DeleteError 400 :=
  ⟨rfl, by decide⟩

/-- C4 amended: for the Azure and Swift adapters, deleting the root path
fails with `DeleteError(400)` unless `confirm_delete` is exactly 1, and no
backend delete call is made; the WEKO adapter performs no such check. -/
theorem root_delete_requires_confirm (p : WBPath) (confirm_delete : Int)
    (pages : List (List Str)) (hroot : p.is_root = true) (hc : confirm_delete ≠ 1) :
    AzureBlobStorageProvider.delete p confirm_delete = (.error (.DeleteError 400), [])
    ∧ SwiftProvider.delete pages p confirm_delete = (.error (.DeleteError 400), []) := by
  constructor <;>
    simp [AzureBlobStorageProvider.delete, SwiftProvider.delete, hroot, hc]

theorem root_delete_requires_confirm_witness :
    WBPath.is_root { raw := ['/'] } = true ∧ (0 : Int) ≠ 1
    ∧ (AzureBlobStorageProvider.delete { raw := ['/'] } 0 = (.error (.DeleteError 400), [])
      ∧ SwiftProvider.delete [] { raw := ['/'] } 0 = (.error (.DeleteError 400), [])) :=
  ⟨by decide, by decide,
   root_delete_requires_confirm { raw := ['/'] } 0 [] (by decide) (by decide)⟩

/-! ## Intra-Transfer Negotiator (swift/provider.py `can_intra_copy` and
`can_intra_move`, azureblobstorage/provider.py `can_intra_copy` and
`can_intra_move`)

`type(self) == type(dest_provider)` compares concrete adapter classes,
modelled as a backend-type tag; `getattr(path, 'is_dir', False)` is `False`
when no path is given. -/

/-- The concrete adapter classes appearing in the repository. -/
inductive BackendType where
  | azureblobstorage
  | swift
  | weko
  deriving DecidableEq, Repr

def SwiftProvider.can_intra_copy (dest : BackendType) (path : Option WBPath) : Bool :=
  decide (BackendType.swift = dest)
    && !(match path with | some q => q.is_dir | none => false)

def SwiftProvider.can_intra_move (dest : BackendType) (path : Option WBPath) : Bool :=
  decide (BackendType.swift = dest)
    && !(match path with | some q => q.is_dir | none => false)

def AzureBlobStorageProvider.can_intra_copy (dest : BackendType) (path : Option WBPath) :
    Bool := false

def AzureBlobStorageProvider.can_intra_move (dest : BackendType) (path : Option WBPath) :
    Bool := false

/-- C5: `can_intra_copy` and `can_intra_move` return false whenever the
destination adapter is of a different concrete backend type than the source,
or whenever the given path is a directory, for both the Swift adapter and
the Azure adapter (whose negotiator is constantly false). -/
theorem can_intra_copy_hetero_or_dir (dest : BackendType) (path : Option WBPath) :
    (dest ≠ .swift →
      SwiftProvider.can_intra_copy dest path = false
      ∧ SwiftProvider.can_intra_move dest path = false)
    ∧ ((match path with | some q => q.is_dir | none => false) = true →
      SwiftProvider.can_intra_copy dest path = false
      ∧ SwiftProvider.can_intra_move dest path = false)
    ∧ (dest ≠ .azureblobstorage →
      AzureBlobStorageProvider.can_intra_copy dest path = false
      ∧ AzureBlobStorageProvider.can_intra_move dest path = false)
    ∧ ((match path with | some q => q.is_dir | none => false) = true →
      AzureBlobStorageProvider.can_intra_copy dest path = false
      ∧ AzureBlobStorageProvider.can_intra_move dest path = false) := by
  refine ⟨fun h => ?_, fun h => ?_, fun _ => ⟨rfl, rfl⟩, fun _ => ⟨rfl, rfl⟩⟩
  · have hd : decide (BackendType.swift = dest) = false := by
      simp [decide_eq_false_iff_not]
      exact fun e => h e.symm
    constructor <;>
      simp [SwiftProvider.can_intra_copy, SwiftProvider.can_intra_move, hd]
  · constructor <;>
      simp [SwiftProvider.can_intra_copy, SwiftProvider.can_intra_move, h]

theorem can_intra_copy_hetero_or_dir_witness :
    (BackendType.weko ≠ BackendType.swift →
      SwiftProvider.can_intra_copy .weko (some { raw := str "/d/" }) = false
      ∧ SwiftProvider.can_intra_move .weko (some { raw := str "/d/" }) = false)
    ∧ ((match some { raw := str "/d/" } with
        | some q => WBPath.is_dir q | none => false) = true →
      SwiftProvider.can_intra_copy .weko (some { raw := str "/d/" }) = false
      ∧ SwiftProvider.can_intra_move .weko (some { raw := str "/d/" }) = false)
    ∧ (BackendType.weko ≠ BackendType.azureblobstorage →
      AzureBlobStorageProvider.can_intra_copy .weko (some { raw := str "/d/" }) = false
      ∧ AzureBlobStorageProvider.can_intra_move .weko (some { raw := str "/d/" }) = false)
    ∧ ((match some { raw := str "/d/" } with
        | some q => WBPath.is_dir q | none => false) = true →
      AzureBlobStorageProvider.can_intra_copy .weko (some { raw := str "/d/" }) = false
      ∧ AzureBlobStorageProvider.can_intra_move .weko (some { raw := str "/d/" }) = false) :=
  can_intra_copy_hetero_or_dir .weko (some { raw := str "/d/" })

/-! ## Path validation (azureblobstorage/provider.py `validate_v1_path` and
`validate_path`, swift/provider.py `validate_v1_path` and `validate_path`,
weko/provider.py `validate_v1_path` and `validate_path`)

The backend is modelled by its key listing: `list_blobs`/`get_container`
return all keys, and the exact-key lookup (`get_blob_properties` /
`head_object`) succeeds exactly when the key is present.  `validate_path`
takes no backend state at all: it is syntactic.

The Azure adapter's exact-key branch is broken: its handler is
`except azureblobstorage_exceptions.ClientException`, and the name
`azureblobstorage_exceptions` is never imported or defined in the module
(only `AzureHttpError` is imported), so when `get_blob_properties` fails
for a missing blob, evaluating the handler's clause raises `NameError` and
the `raise exceptions.NotFoundError` on the next line is unreachable. -/

def AzureBlobStorageProvider.validate_v1_path (keys : List Str) (path : Str) :
    Except WBError WBPath :=
  if path = ['/'] then .ok { raw := path }
  else if ¬ ['/'].isPrefixOf path then .error .AssertionError
  else if path.getLast? = some '/' then
    if (keys.filter (fun k => (path.drop 1).isPrefixOf k)).length = 0 then
      .error .NotFoundError
    else .ok { raw := path }
  else if path.drop 1 ∈ keys then .ok { raw := path } else .error .NameError

def SwiftProvider.validate_v1_path (keys : List Str) (path : Str) :
    Except WBError WBPath :=
  if path = ['/'] then .ok { raw := path }
  else if ¬ ['/'].isPrefixOf path then .error .AssertionError
  else if path.getLast? = some '/' then
    if (keys.filter (fun k => (path.drop 1).isPrefixOf k)).length = 0 then
      .error .NotFoundError
    else .ok { raw := path }
  else if path.drop 1 ∈ keys then .ok { raw := path } else .error .NotFoundError

def AzureBlobStorageProvider.validate_path (path : Str) : Except WBError WBPath :=
  waterButlerPath path

def SwiftProvider.validate_path (path : Str) : Except WBError WBPath :=
  waterButlerPath path

def WEKOProvider.validate_path (path : Str) : Except WBError WBPath :=
  waterButlerPath path

/-- weko/provider.py `validate_v1_path` simply delegates to `validate_path`:
it takes no backend state and performs no existence check. -/
def WEKOProvider.validate_v1_path (path : Str) : Except WBError WBPath :=
  WEKOProvider.validate_path path

/-- C6 counterexample: the WEKO adapter's `validate_v1_path` succeeds on any
well-formed path without consulting the backend (it takes no backend state),
so "confirms existence against the backend and fails with `NotFoundError`
when the lookup comes back empty" does not hold for every adapter. -/
theorem weko_validate_v1_path_no_existence_check :
    WEKOProvider.validate_v1_path (str "/ghost.txt") = .ok { raw := str "/ghost.txt" }
    ∧ (Except.ok { raw := str "/ghost.txt" } : Except WBError WBPath)
      ≠ .error .NotFoundError :=
  ⟨rfl, by simp⟩

/-- C6 amended: the Swift adapter's `validate_v1_path` fails with
`NotFoundError` exactly when the backend lookup comes back empty (for a
non-root path ending in a separator: no backend key starts with the path
minus its leading slash; otherwise: the exact key is absent).  The Azure
adapter behaves the same on the implicit-folder branch, but its exact-key
branch can never raise `NotFoundError`: the except clause names the
undefined `azureblobstorage_exceptions`, so a missing exact key raises
`NameError` instead.  `validate_path` (and the WEKO adapter's
`validate_v1_path`, which delegates to it) performs syntactic validation
only and takes no backend state. -/
theorem validate_v1_path_existence (keys : List Str) (path : Str)
    (hroot : path ≠ ['/']) (hslash : ['/'].isPrefixOf path) :
    (path.getLast? = some '/' →
      (AzureBlobStorageProvider.validate_v1_path keys path = .error .NotFoundError
        ↔ keys.filter (fun k => (path.drop 1).isPrefixOf k) = [])
      ∧ (SwiftProvider.validate_v1_path keys path = .error .NotFoundError
        ↔ keys.filter (fun k => (path.drop 1).isPrefixOf k) = []))
    ∧ (path.getLast? ≠ some '/' →
      (AzureBlobStorageProvider.validate_v1_path keys path = .error .NameError
        ↔ path.drop 1 ∉ keys)
      ∧ AzureBlobStorageProvider.validate_v1_path keys path ≠ .error .NotFoundError
      ∧ (SwiftProvider.validate_v1_path keys path = .error .NotFoundError
        ↔ path.drop 1 ∉ keys))
    ∧ AzureBlobStorageProvider.validate_path path = .ok { raw := path }
    ∧ SwiftProvider.validate_path path = .ok { raw := path }
    ∧ WEKOProvider.validate_v1_path path = WEKOProvider.validate_path path := by
  have hbaseA : AzureBlobStorageProvider.validate_v1_path keys path
      = if path.getLast? = some '/' then
          (if (keys.filter (fun k => (path.drop 1).isPrefixOf k)).length = 0 then
            Except.error WBError.NotFoundError
          else Except.ok { raw := path })
        else if path.drop 1 ∈ keys then Except.ok { raw := path }
        else Except.error WBError.NameError := by
    simp only [AzureBlobStorageProvider.validate_v1_path]
    rw [if_neg hroot, if_neg (not_not_intro hslash)]
  have hbaseS : SwiftProvider.validate_v1_path keys path
      = if path.getLast? = some '/' then
          (if (keys.filter (fun k => (path.drop 1).isPrefixOf k)).length = 0 then
            Except.error WBError.NotFoundError
          else Except.ok { raw := path })
        else if path.drop 1 ∈ keys then Except.ok { raw := path }
        else Except.error WBError.NotFoundError := by
    simp only [SwiftProvider.validate_v1_path]
    rw [if_neg hroot, if_neg (not_not_intro hslash)]
  refine ⟨fun hdir => ?_, fun hfile => ?_, ?_, ?_, rfl⟩
  · have hA : AzureBlobStorageProvider.validate_v1_path keys path
        = if (keys.filter (fun k => (path.drop 1).isPrefixOf k)).length = 0 then
            Except.error WBError.NotFoundError
          else Except.ok { raw := path } := by
      rw [hbaseA, if_pos hdir]
    have hS : SwiftProvider.validate_v1_path keys path
        = if (keys.filter (fun k => (path.drop 1).isPrefixOf k)).length = 0 then
            Except.error WBError.NotFoundError
          else Except.ok { raw := path } := by
      rw [hbaseS, if_pos hdir]
    have key : (if (keys.filter (fun k => (path.drop 1).isPrefixOf k)).length = 0 then
          (Except.error WBError.NotFoundError : Except WBError WBPath)
        else Except.ok { raw := path }) = Except.error WBError.NotFoundError
        ↔ keys.filter (fun k => (path.drop 1).isPrefixOf k) = [] := by
      by_cases hlen : (keys.filter (fun k => (path.drop 1).isPrefixOf k)).length = 0
      · rw [if_pos hlen]
        exact ⟨fun _ => List.length_eq_zero.mp hlen, fun _ => rfl⟩
      · rw [if_neg hlen]
        constructor
        · intro h
          exact Except.noConfusion h
        · intro h
          rw [h] at hlen
          exact absurd rfl hlen
    rw [hA, hS]
    exact ⟨key, key⟩
  · have hA : AzureBlobStorageProvider.validate_v1_path keys path
        = if path.drop 1 ∈ keys then Except.ok { raw := path }
          else Except.error WBError.NameError := by
      rw [hbaseA, if_neg hfile]
    have hS : SwiftProvider.validate_v1_path keys path
        = if path.drop 1 ∈ keys then Except.ok { raw := path }
          else Except.error WBError.NotFoundError := by
      rw [hbaseS, if_neg hfile]
    rw [hA, hS]
    by_cases hmem : path.drop 1 ∈ keys
    · rw [if_pos hmem, if_pos hmem]
      exact ⟨⟨fun h => Except.noConfusion h, fun h => absurd hmem h⟩,
        fun h => Except.noConfusion h,
        ⟨fun h => Except.noConfusion h, fun h => absurd hmem h⟩⟩
    · rw [if_neg hmem, if_neg hmem]
      exact ⟨⟨fun _ => hmem, fun _ => rfl⟩,
        fun h => WBError.noConfusion (Except.error.inj h),
        ⟨fun _ => hmem, fun _ => rfl⟩⟩
  · simp only [AzureBlobStorageProvider.validate_path, waterButlerPath]
    rw [if_pos hslash]
  · simp only [SwiftProvider.validate_path, waterButlerPath]
    rw [if_pos hslash]

theorem validate_v1_path_existence_witness :
    str "/ghost.txt" ≠ ['/'] ∧ ['/'].isPrefixOf (str "/ghost.txt")
    ∧ (((str "/ghost.txt").getLast? = some '/' →
        (AzureBlobStorageProvider.validate_v1_path [str "other"] (str "/ghost.txt")
            = .error .NotFoundError
          ↔ [str "other"].filter
              (fun k => ((str "/ghost.txt").drop 1).isPrefixOf k) = [])
        ∧ (SwiftProvider.validate_v1_path [str "other"] (str "/ghost.txt")
            = .error .NotFoundError
          ↔ [str "other"].filter
              (fun k => ((str "/ghost.txt").drop 1).isPrefixOf k) = []))
      ∧ ((str "/ghost.txt").getLast? ≠ some '/' →
        (AzureBlobStorageProvider.validate_v1_path [str "other"] (str "/ghost.txt")
            = .error .NameError
          ↔ (str "/ghost.txt").drop 1 ∉ [str "other"])
        ∧ AzureBlobStorageProvider.validate_v1_path [str "other"] (str "/ghost.txt")
            ≠ .error .NotFoundError
        ∧ (SwiftProvider.validate_v1_path [str "other"] (str "/ghost.txt")
            = .error .NotFoundError
          ↔ (str "/ghost.txt").drop 1 ∉ [str "other"]))
      ∧ AzureBlobStorageProvider.validate_path (str "/ghost.txt")
        = .ok { raw := str "/ghost.txt" }
      ∧ SwiftProvider.validate_path (str "/ghost.txt")
        = .ok { raw := str "/ghost.txt" }
      ∧ WEKOProvider.validate_v1_path (str "/ghost.txt")
        = WEKOProvider.validate_path (str "/ghost.txt")) :=
  ⟨by decide, by decide,
   validate_v1_path_existence [str "other"] (str "/ghost.txt") (by decide) (by decide)⟩

/-! ## Download guards (azureblobstorage/provider.py `download`,
swift/provider.py `download`, weko/provider.py `download`)

A download result is paired with the number of backend read requests it
issues.  The WEKO adapter never inspects file-ness: it checks
`path.identifier is None` (raising `NotFoundError`) and otherwise issues the
GET, whose `expects=(200, 206)` turns any other status into a
`DownloadError` carrying that status. -/

def AzureBlobStorageProvider.download (p : WBPath) : Except WBError Str × Nat :=
  if ¬ p.is_file then (.error (.DownloadError 400), 0)
  else if ['/'].isPrefixOf p.path then (.error .AssertionError, 0)
  else (.ok p.path, 1)

def SwiftProvider.download (p : WBPath) : Except WBError Str × Nat :=
  if ¬ p.is_file then (.error (.DownloadError 400), 0)
  else if ['/'].isPrefixOf p.path then (.error .AssertionError, 0)
  else (.ok p.path, 1)

def WEKOProvider.download (status : Nat) (p : WBPath) : Except WBError Str × Nat :=
  match p.identifier with
  | none => (.error .NotFoundError, 0)
  | some fid =>
    if status = 200 ∨ status = 206 then (.ok fid, 1)
    else (.error (.DownloadError status), 1)

/-- C7 counterexample: the WEKO adapter's download of the root path (not a
file) fails with `NotFoundError`, not `DownloadError(400)`, so the claim
does not hold for every backend adapter. -/
theorem weko_download_root_not_download_error :
    WEKOProvider.download 200 { raw := ['/'] } = (.error .NotFoundError, 0)
    ∧ WBError.NotFoundError ≠ WBError.DownloadError 400 :=
  ⟨rfl, by decide⟩

/-- C7 amended: for the Azure and Swift adapters, download of any path that
does not denote a file fails with `DownloadError(400)` and issues no backend
read; the WEKO adapter instead checks only whether the path has a backend
identifier (`NotFoundError` when absent). -/
theorem download_non_file_rejected (p : WBPath) (hfile : p.is_file = false) :
    AzureBlobStorageProvider.download p = (.error (.DownloadError 400), 0)
    ∧ SwiftProvider.download p = (.error (.DownloadError 400), 0) := by
  constructor <;>
    simp [AzureBlobStorageProvider.download, SwiftProvider.download, hfile]

theorem download_non_file_rejected_witness :
    WBPath.is_file { raw := str "/docs/" } = false
    ∧ (AzureBlobStorageProvider.download { raw := str "/docs/" }
        = (.error (.DownloadError 400), 0)
      ∧ SwiftProvider.download { raw := str "/docs/" }
        = (.error (.DownloadError 400), 0)) :=
  ⟨by decide, download_non_file_rejected { raw := str "/docs/" } (by decide)⟩

/-! ## Flat-Namespace Metadata Synthesizer
(azureblobstorage/provider.py `_metadata_folder`, swift/provider.py
`_metadata_folder`)

Both adapters list every backend key, keep those starting with the folder's
key, and pair each with its stripped suffix.  Suffixes with a separator
contribute `suffix[:suffix.index('/') + 1]` to a sorted, deduplicated set of
folder names; separator-free suffixes become file entries in listing order,
except those for which `content_path == path.path` — a comparison of the
STRIPPED suffix against the full folder key.  The Azure variant alone raises
a 404 `MetadataError` when nothing matched. -/

/-- A synthesized listing entry; file entries carry the backend object the
metadata constructor receives (identified here by its key). -/
inductive WBMeta where
  | folder (pfx : Str)
  | file (key : Str)
  deriving DecidableEq, Repr

/-- `s[:s.index('/') + 1]`: the suffix up to and including its first
separator (total: returns the whole string when no separator occurs, a case
the source never reaches). -/
def takeThroughSlash : Str → Str
  | [] => []
  | c :: rest => if c = '/' then [c] else c :: takeThroughSlash rest

/-- Lexicographic comparison of the `List Char` string model, as Python
compares `str` values. -/
def strLtB : Str → Str → Bool
  | [], [] => false
  | [], _ :: _ => true
  | _ :: _, [] => false
  | a :: as, b :: bs => if a < b then true else if b < a then false else strLtB as bs

/-- `sorted(set(xs))`. -/
def sortedDedup (l : List Str) : List Str :=
  List.insertionSort (fun a b => (strLtB a b || a == b) = true) l.dedup

def AzureBlobStorageProvider._metadata_folder (keys : List Str) (pathKey : Str) :
    Except WBError (List WBMeta) :=
  let objects := (keys.filter (fun k => pathKey.isPrefixOf k)).map
      (fun k => (k.drop pathKey.length, k))
  if objects.length = 0 then .error (.MetadataError 404)
  else
    let contents := objects.filter (fun o => !(o.1.contains '/'))
    let folderNames := sortedDedup ((objects.filter (fun o => o.1.contains '/')).map
        (fun o => takeThroughSlash o.1))
    .ok (folderNames.map WBMeta.folder
      ++ (contents.filter (fun o => !(o.1 == pathKey))).map (fun o => WBMeta.file o.2))

/-- swift/provider.py `_metadata_folder`: same synthesis, but with no
emptiness check — an unmatched folder key yields an empty listing. -/
def SwiftProvider._metadata_folder (keys : List Str) (pathKey : Str) : List WBMeta :=
  let objects := (keys.filter (fun k => pathKey.isPrefixOf k)).map
      (fun k => (k.drop pathKey.length, k))
  let contents := objects.filter (fun o => !(o.1.contains '/'))
  let folderNames := sortedDedup ((objects.filter (fun o => o.1.contains '/')).map
      (fun o => takeThroughSlash o.1))
  folderNames.map WBMeta.folder
    ++ (contents.filter (fun o => !(o.1 == pathKey))).map (fun o => WBMeta.file o.2)

/-- C2: on the claim's own example the synthesizers emit a THIRD entry — a
file entry for the folder's placeholder key "docs/" (empty stripped suffix).
The skip test compares the stripped suffix (here "") against the full folder
key ("docs/"), so it never fires for any directory, and the placeholder is
not excluded as the claim (and the evident intent of the skip test)
requires. -/
theorem metadata_folder_placeholder_not_excluded :
    AzureBlobStorageProvider._metadata_folder
        [str "docs/", str "docs/a.txt", str "docs/sub/b.txt", str "docs/sub/c.txt"]
        (str "docs/")
      = .ok [.folder (str "sub/"), .file (str "docs/"), .file (str "docs/a.txt")]
    ∧ SwiftProvider._metadata_folder
        [str "docs/", str "docs/a.txt", str "docs/sub/b.txt", str "docs/sub/c.txt"]
        (str "docs/")
      = [.folder (str "sub/"), .file (str "docs/"), .file (str "docs/a.txt")]
    ∧ [WBMeta.folder (str "sub/"), WBMeta.file (str "docs/"),
        WBMeta.file (str "docs/a.txt")]
      ≠ [WBMeta.folder (str "sub/"), WBMeta.file (str "docs/a.txt")] :=
  ⟨rfl, rfl, by decide⟩

/-- C8 counterexample: when no backend key starts with the queried folder's
key, the Azure adapter raises `MetadataError` with code 404, which is not
the `NotFoundError` the claim names. -/
theorem azure_empty_folder_is_metadata_error :
    AzureBlobStorageProvider._metadata_folder [str "other"] (str "docs/")
      = .error (.MetadataError 404)
    ∧ WBError.MetadataError 404 ≠ WBError.NotFoundError :=
  ⟨rfl, by decide⟩

/-- C8 amended: when no backend key starts with the queried folder's key,
the Azure adapter signals `MetadataError` with code 404 for the folder
itself while the Swift adapter returns an empty listing; for non-empty input
the synthesis is pure and total — the Azure adapter returns a listing (its
only failure is the emptiness check) and the Swift adapter is total by
type. -/
theorem metadata_folder_empty_and_total (keys : List Str) (pathKey : Str) :
    (keys.filter (fun k => pathKey.isPrefixOf k) = [] →
      AzureBlobStorageProvider._metadata_folder keys pathKey = .error (.MetadataError 404)
      ∧ SwiftProvider._metadata_folder keys pathKey = [])
    ∧ (keys.filter (fun k => pathKey.isPrefixOf k) ≠ [] →
      ∃ items, AzureBlobStorageProvider._metadata_folder keys pathKey = .ok items) := by
  constructor
  · intro h
    constructor
    · simp only [AzureBlobStorageProvider._metadata_folder, h]
      rfl
    · simp only [SwiftProvider._metadata_folder, h]
      rfl
  · intro h
    have hlen : ¬ ((keys.filter (fun k => pathKey.isPrefixOf k)).map
        (fun k => (k.drop pathKey.length, k))).length = 0 := by
      simp only [List.length_map]
      simpa [List.length_eq_zero] using h
    simp only [AzureBlobStorageProvider._metadata_folder]
    rw [if_neg hlen]
    exact ⟨_, rfl⟩

theorem metadata_folder_empty_and_total_witness :
    [str "docs/a.txt"].filter (fun k => (str "docs/").isPrefixOf k) ≠ []
    ∧ ∃ items, AzureBlobStorageProvider._metadata_folder [str "docs/a.txt"] (str "docs/")
        = .ok items :=
  ⟨by decide,
   (metadata_folder_empty_and_total [str "docs/a.txt"] (str "docs/")).2 (by decide)⟩

/-! ## WEKO Index titles (weko/client.py `Index.nested`, `Index.title`)

`nested` counts leading "--" pairs of the raw title by repeatedly testing
`title.startswith('--')` and stripping two characters; `title` drops
`nested * 2` characters from the raw title. -/

/-- weko/client.py `Index.nested` over the raw title string. -/
def Index.nested : Str → Nat
  | [] => 0
  | [_] => 0
  | a :: b :: rest => if a = '-' ∧ b = '-' then Index.nested rest + 1 else 0

/-- weko/client.py `Index.title`: `self.raw['title'][self.nested * 2:]`. -/
def Index.title (raw : Str) : Str := raw.drop (Index.nested raw * 2)

theorem index_nested_zero (text : Str) (h : ¬ ['-', '-'].isPrefixOf text = true) :
    Index.nested text = 0 := by
  match text with
  | [] => rfl
  | [_] => rfl
  | a :: b :: rest =>
    rw [Index.nested, if_neg]
    rintro ⟨rfl, rfl⟩
    exact h (by simp [List.isPrefixOf])

theorem index_nested_prepend (n : Nat) (text : Str)
    (h : ¬ ['-', '-'].isPrefixOf text = true) :
    Index.nested (List.replicate (2 * n) '-' ++ text) = n := by
  induction n with
  | zero => simpa using index_nested_zero text h
  | succ m ih =>
    have hrep : (2 * (m + 1)) = (2 * m) + 1 + 1 := by omega
    rw [hrep, List.replicate_succ, List.replicate_succ, List.cons_append, List.cons_append,
      Index.nested, if_pos ⟨rfl, rfl⟩, ih]

/-- C9: for a raw title of `n` leading "--" pairs followed by text not
beginning with "--", `nested` equals `n`, `title` recovers the text, and
prepending "--" repeated `nested` times to `title` reconstructs the raw
title exactly. -/
theorem index_nested_title_roundtrip (n : Nat) (text : Str)
    (h : ¬ ['-', '-'].isPrefixOf text = true) :
    Index.nested (List.replicate (2 * n) '-' ++ text) = n
    ∧ Index.title (List.replicate (2 * n) '-' ++ text) = text
    ∧ List.replicate (2 * Index.nested (List.replicate (2 * n) '-' ++ text)) '-'
        ++ Index.title (List.replicate (2 * n) '-' ++ text)
      = List.replicate (2 * n) '-' ++ text := by
  have hn := index_nested_prepend n text h
  have htitle : Index.title (List.replicate (2 * n) '-' ++ text) = text := by
    rw [Index.title, hn, Nat.mul_comm]
    have hlen : (List.replicate (2 * n) '-').length = 2 * n := List.length_replicate _ _
    rw [List.drop_append_of_le_length (Nat.le_of_eq hlen.symm), List.drop_replicate]
    simp
  refine ⟨hn, htitle, ?_⟩
  rw [hn, htitle]

theorem index_nested_title_roundtrip_witness :
    ¬ ['-', '-'].isPrefixOf (str "abc") = true
    ∧ (Index.nested (List.replicate (2 * 2) '-' ++ str "abc") = 2
      ∧ Index.title (List.replicate (2 * 2) '-' ++ str "abc") = str "abc"
      ∧ List.replicate (2 * Index.nested (List.replicate (2 * 2) '-' ++ str "abc")) '-'
          ++ Index.title (List.replicate (2 * 2) '-' ++ str "abc")
        = List.replicate (2 * 2) '-' ++ str "abc") :=
  ⟨by decide, index_nested_title_roundtrip 2 (str "abc") (by decide)⟩

/-! ## OSF auth handler (auth/osf/handler.py `fetch` and `get`)

A response from the identity service is modelled by its status, its body's
JSON parse (`none` when `response.json()` raises `ValueError`) and its raw
body.  Both methods share the same response handling: for a non-200 status
they wrap whichever body form parses into `AuthError(data, code=status)`;
for a 200 status they return `response.json()` — which propagates
`ValueError` when the body does not parse. -/

/-- The data attached to an `AuthError`: the parsed JSON body when it
parses, the raw bytes otherwise. -/
inductive AuthData (α β : Type) where
  | json (j : α)
  | raw (r : β)
  deriving DecidableEq, Repr

/-- Outcome of a handler call. -/
inductive AuthOutcome (α β : Type) where
  | ok (j : α)
  | authError (d : AuthData α β) (code : Nat)
  | valueError
  deriving DecidableEq, Repr

/-- Whether the call returned a parsed JSON body. -/
def AuthOutcome.returnsJson {α β : Type} : AuthOutcome α β → Bool
  | .ok _ => true
  | _ => false

def OsfAuthHandler.fetch {α β : Type} (status : Nat) (jsonBody : Option α) (rawBody : β) :
    AuthOutcome α β :=
  if status ≠ 200 then
    .authError (match jsonBody with | some j => .json j | none => .raw rawBody) status
  else
    match jsonBody with
    | some j => .ok j
    | none => .valueError

/-- auth/osf/handler.py `get`: identical response handling to `fetch`. -/
def OsfAuthHandler.get {α β : Type} (status : Nat) (jsonBody : Option α) (rawBody : β) :
    AuthOutcome α β :=
  if status ≠ 200 then
    .authError (match jsonBody with | some j => .json j | none => .raw rawBody) status
  else
    match jsonBody with
    | some j => .ok j
    | none => .valueError

/-- The Authorization header `get` sends: a `token` query argument wins over
an incoming Authorization header. -/
def OsfAuthHandler.getAuthHeader (queryToken : Option Str) (authHeader : Option Str) :
    Option Str :=
  match queryToken with
  | some t => some (str "Bearer " ++ t)
  | none => authHeader

/-- The Authorization header `fetch` sends: a non-empty incoming header
starting with "Bearer " wins, else a bundle token, else nothing. -/
def OsfAuthHandler.fetchAuthHeader (authHeader : Option Str) (bundleToken : Option Str) :
    Option Str :=
  match authHeader with
  | some a =>
    if a ≠ [] ∧ (str "Bearer ").isPrefixOf a then some a
    else
      match bundleToken with
      | some t => some (str "Bearer " ++ t)
      | none => none
  | none =>
    match bundleToken with
    | some t => some (str "Bearer " ++ t)
    | none => none

/-- C10 counterexample: a 200 response whose body does not parse as JSON
makes both `fetch` and `get` raise `ValueError` — no parsed JSON body is
returned although the status is 200, so "returns the parsed JSON body if
and only if the status is 200" fails as stated. -/
theorem osf_auth_unparseable_200_is_value_error :
    OsfAuthHandler.fetch 200 (none : Option Nat) (7 : Nat) = .valueError
    ∧ OsfAuthHandler.get 200 (none : Option Nat) (7 : Nat) = .valueError
    ∧ (OsfAuthHandler.fetch 200 (none : Option Nat) (7 : Nat)).returnsJson = false
    ∧ (OsfAuthHandler.get 200 (none : Option Nat) (7 : Nat)).returnsJson = false :=
  ⟨rfl, rfl, rfl, rfl⟩

/-- C10 amended: both `fetch` and `get` raise `AuthError` carrying exactly
the service's status code if and only if that status is not 200; they return
the parsed JSON body if and only if the status is 200 and the body parses as
JSON (a 200 response with an unparseable body raises `ValueError`); and in
`get` a `token` query argument takes precedence over the Authorization
header when both are present. -/
theorem osf_auth_status_behavior {α β : Type} (status : Nat) (jsonBody : Option α)
    (rawBody : β) :
    (status ≠ 200 →
      OsfAuthHandler.fetch status jsonBody rawBody
        = .authError (match jsonBody with | some j => .json j | none => .raw rawBody)
            status
      ∧ OsfAuthHandler.get status jsonBody rawBody
        = .authError (match jsonBody with | some j => .json j | none => .raw rawBody)
            status)
    ∧ (∀ d : AuthData α β, ∀ c : Nat,
        OsfAuthHandler.fetch status jsonBody rawBody = .authError d c →
          status ≠ 200 ∧ c = status)
    ∧ (∀ d : AuthData α β, ∀ c : Nat,
        OsfAuthHandler.get status jsonBody rawBody = .authError d c →
          status ≠ 200 ∧ c = status)
    ∧ (∀ j : α, OsfAuthHandler.fetch status jsonBody rawBody = .ok j
        ↔ (status = 200 ∧ jsonBody = some j))
    ∧ (∀ j : α, OsfAuthHandler.get status jsonBody rawBody = .ok j
        ↔ (status = 200 ∧ jsonBody = some j))
    ∧ (∀ t ah, OsfAuthHandler.getAuthHeader (some t) ah = some (str "Bearer " ++ t)) := by
  have hget : OsfAuthHandler.get (α := α) (β := β) = OsfAuthHandler.fetch := rfl
  rw [hget]
  by_cases hs : status = 200
  · subst hs
    cases jsonBody with
    | some j =>
      have hred : OsfAuthHandler.fetch (α := α) (β := β) 200 (some j) rawBody = .ok j := by
        rw [OsfAuthHandler.fetch.eq_def, if_neg (not_not_intro rfl)]
      refine ⟨fun h => absurd rfl h, ?_, ?_, ?_, ?_, fun t ah => rfl⟩
      · intro d c h
        rw [hred] at h
        exact AuthOutcome.noConfusion h
      · intro d c h
        rw [hred] at h
        exact AuthOutcome.noConfusion h
      · intro j2
        rw [hred]
        exact ⟨fun h => ⟨rfl, congrArg some (AuthOutcome.ok.inj h)⟩,
          fun h => by rw [Option.some.inj h.2]⟩
      · intro j2
        rw [hred]
        exact ⟨fun h => ⟨rfl, congrArg some (AuthOutcome.ok.inj h)⟩,
          fun h => by rw [Option.some.inj h.2]⟩
    | none =>
      have hred : OsfAuthHandler.fetch (α := α) (β := β) 200 none rawBody = .valueError := by
        rw [OsfAuthHandler.fetch.eq_def, if_neg (not_not_intro rfl)]
      refine ⟨fun h => absurd rfl h, ?_, ?_, ?_, ?_, fun t ah => rfl⟩
      · intro d c h
        rw [hred] at h
        exact AuthOutcome.noConfusion h
      · intro d c h
        rw [hred] at h
        exact AuthOutcome.noConfusion h
      · intro j2
        rw [hred]
        exact ⟨fun h => AuthOutcome.noConfusion h, fun h => Option.noConfusion h.2⟩
      · intro j2
        rw [hred]
        exact ⟨fun h => AuthOutcome.noConfusion h, fun h => Option.noConfusion h.2⟩
  · have hfetch : OsfAuthHandler.fetch status jsonBody rawBody
        = .authError (match jsonBody with | some j => .json j | none => .raw rawBody)
            status := by
      rw [OsfAuthHandler.fetch.eq_def, if_pos hs]
    refine ⟨fun _ => ⟨hfetch, hfetch⟩, ?_, ?_, ?_, ?_, fun t ah => rfl⟩
    · intro d c h
      rw [hfetch] at h
      exact ⟨hs, ((AuthOutcome.authError.inj h).2).symm⟩
    · intro d c h
      rw [hfetch] at h
      exact ⟨hs, ((AuthOutcome.authError.inj h).2).symm⟩
    · intro j2
      rw [hfetch]
      exact ⟨fun h => AuthOutcome.noConfusion h, fun h => absurd h.1 hs⟩
    · intro j2
      rw [hfetch]
      exact ⟨fun h => AuthOutcome.noConfusion h, fun h => absurd h.1 hs⟩

theorem osf_auth_status_behavior_witness :
    ((403 : Nat) ≠ 200 →
      OsfAuthHandler.fetch 403 (some 5) (7 : Nat)
        = .authError
            (match some 5 with | some j => .json j | none => .raw (7 : Nat)) 403
      ∧ OsfAuthHandler.get 403 (some 5) (7 : Nat)
        = .authError
            (match some 5 with | some j => .json j | none => .raw (7 : Nat)) 403)
    ∧ (∀ d : AuthData Nat Nat, ∀ c : Nat,
        OsfAuthHandler.fetch 403 (some 5) (7 : Nat) = .authError d c →
          (403 : Nat) ≠ 200 ∧ c = 403)
    ∧ (∀ d : AuthData Nat Nat, ∀ c : Nat,
        OsfAuthHandler.get 403 (some 5) (7 : Nat) = .authError d c →
          (403 : Nat) ≠ 200 ∧ c = 403)
    ∧ (∀ j : Nat, OsfAuthHandler.fetch 403 (some 5) (7 : Nat) = .ok j
        ↔ ((403 : Nat) = 200 ∧ (some 5 : Option Nat) = some j))
    ∧ (∀ j : Nat, OsfAuthHandler.get 403 (some 5) (7 : Nat) = .ok j
        ↔ ((403 : Nat) = 200 ∧ (some 5 : Option Nat) = some j))
    ∧ (∀ t ah, OsfAuthHandler.getAuthHeader (some t) ah = some (str "Bearer " ++ t)) :=
  osf_auth_status_behavior 403 (some 5) (7 : Nat)
